import Mathlib

/-
  Verification development for the ib_async request-orchestration and
  state-synchronization layer (src/ib_async/ib.py).

  The definitions below are a shallow embedding of the Python source:
  the order/trade lifecycle (placeOrder, cancelOrder, bracketOrder,
  oneCancelsAll), the P&L subscription starters (reqPnL, reqPnLSingle),
  disconnect, and the startup synchronization choreography of
  connectAsync.  Mutable Python state (the wrapper's trades and
  subscription maps, the client's request-id counter, emitted events and
  wire sends) is threaded explicitly through an `IBState` record;
  `assert` failures are modelled by returning `none`.
-/

set_option autoImplicit false

namespace IbAsync

/-- Order status values used by ib.py (PendingSubmit, PendingCancel,
Inactive, Cancelled appear literally in placeOrder/cancelOrder). -/
inductive Status where
  | PendingSubmit
  | PendingCancel
  | PreSubmitted
  | Submitted
  | ApiPending
  | ApiCancelled
  | Cancelled
  | Filled
  | Inactive
  deriving DecidableEq, Repr

/-- OrderStatus record: `OrderStatus(orderId=orderId, status=...)`. -/
structure OrderStatus where
  orderId : Int := 0
  status : Status
  deriving DecidableEq, Repr

/-- Modelled from the spec: `OrderStatus.DoneStates` lives in order.py,
which is not under src/.  The spec's data model gives a terminal /
non-terminal partition of statuses ("Done states: Filled, Cancelled,
ApiCancelled, Inactive, and similar"); however spec section 4.3 and the
code of cancelOrder (ib.py line 836) both specify a direct
Inactive-to-Cancelled transition, which requires Inactive to be
cancellable, hence non-terminal.  So the Done states are Filled,
Cancelled and ApiCancelled. -/
def OrderStatus.DoneStates (s : Status) : Bool :=
  match s with
  | .Filled => true
  | .Cancelled => true
  | .ApiCancelled => true
  | _ => false

/-- Instrument descriptor; its contents are opaque to the order
lifecycle, only identity matters here. -/
structure Contract where
  conId : Int := 0
  symbol : String := ""
  deriving DecidableEq, Repr

/-- The Order fields that ib.py reads or writes: identity (orderId,
clientId, permId), bracket linkage (parentId, transmit), OCA tagging
(ocaGroup, ocaType) and the constructor parameters of
LimitOrder/StopOrder. -/
structure Order where
  orderId : Int := 0
  clientId : Int := 0
  permId : Int := 0
  action : String := ""
  totalQuantity : Rat := 0
  orderType : String := ""
  lmtPrice : Rat := 0
  auxPrice : Rat := 0
  transmit : Bool := true
  parentId : Int := 0
  ocaGroup : String := ""
  ocaType : Int := 0
  deriving DecidableEq, Repr

/-- `TradeLogEntry(time, status, message)`; time is an abstract tick of
the session clock. -/
structure TradeLogEntry where
  time : Nat
  status : Status
  message : String := ""
  deriving DecidableEq, Repr

/-- A fill; its contents are irrelevant to the claims, only the list of
fills attached to a Trade matters. -/
structure Fill where
  execId : String := ""
  deriving DecidableEq, Repr

/-- `Trade(contract, order, orderStatus, fills, log)`. -/
structure Trade where
  contract : Contract
  order : Order
  orderStatus : OrderStatus
  fills : List Fill := []
  log : List TradeLogEntry := []
  deriving DecidableEq, Repr

/-- Modelled from the spec: `Trade.isDone` lives in order.py, not under
src/.  Per the spec a Trade is concluded exactly when its status is in
the terminal partition. -/
def Trade.isDone (t : Trade) : Bool :=
  OrderStatus.DoneStates t.orderStatus.status

/-- Trade identity key: either the server-assigned permId (manual
orders) or the (clientId, orderId) pair. -/
inductive OrderKey where
  | perm (permId : Int)
  | client (clientId : Int) (orderId : Int)
  deriving DecidableEq, Repr

/-- Modelled from the spec: `wrapper.orderKey(clientId, orderId, permId)`
lives in wrapper.py, not under src/.  Per the spec's data model, permId
keys manually placed orders (those without a positive API orderId);
otherwise orderId, unique per clientId, is authoritative. -/
def orderKey (clientId orderId permId : Int) : OrderKey :=
  if orderId ≤ 0 then .perm permId else .client clientId orderId

/-- The live-updated PnL object created by reqPnL. -/
structure PnL where
  account : String := ""
  modelCode : String := ""
  deriving DecidableEq, Repr

/-- The live-updated PnLSingle object created by reqPnLSingle. -/
structure PnLSingle where
  account : String := ""
  modelCode : String := ""
  conId : Int := 0
  deriving DecidableEq, Repr

/-- Event emissions performed by the embedded methods, in order.
`trade*` constructors are the per-Trade events (trade.modifyEvent and
friends), the others are the IB-level broadcast channels. -/
inductive Emit where
  | tradeModify (t : Trade)
  | tradeCancel (t : Trade)
  | tradeStatus (t : Trade)
  | tradeCancelled (t : Trade)
  | newOrderEvent (t : Trade)
  | orderModifyEvent (t : Trade)
  | cancelOrderEvent (t : Trade)
  | orderStatusEvent (t : Trade)
  | disconnectedEvent
  | connectedEvent
  deriving DecidableEq, Repr

/-- Requests handed to the client for wire transmission. -/
inductive WireMsg where
  | placeOrderMsg (orderId : Int) (c : Contract) (o : Order)
  | cancelOrderMsg (orderId : Int) (manualCancelOrderTime : String)
  | reqPnLMsg (reqId : Int) (account modelCode : String)
  | reqPnLSingleMsg (reqId : Int) (account modelCode : String) (conId : Int)
  deriving DecidableEq, Repr

/-- Association list lookup (first match wins), the embedding of Python
dict `.get`. -/
def lookupA {α β : Type} [DecidableEq α] : List (α × β) → α → Option β
  | [], _ => none
  | (k', v) :: rest, k => if k' = k then some v else lookupA rest k

/-- Association list in-place update (insert at end if absent), the
embedding of Python dict assignment. -/
def setAssoc {α β : Type} [DecidableEq α] : List (α × β) → α → β → List (α × β)
  | [], k, v => [(k, v)]
  | (k', v') :: rest, k, v =>
      if k' = k then (k, v) :: rest else (k', v') :: setAssoc rest k v

/-- Connection statistics snapshot used by disconnect's status string. -/
structure ConnStats where
  numBytesSent : Nat := 0
  numMsgSent : Nat := 0
  numBytesRecv : Nat := 0
  numMsgRecv : Nat := 0
  duration : Nat := 0
  deriving DecidableEq, Repr

/-- The explicit session state threaded through the embedded methods:
the wrapper's trades and P&L subscription maps, the client's request-id
counter and connection flag, the session clock, and the traces of wire
sends and event emissions. -/
structure IBState where
  clientId : Int := 0
  nextReqId : Int := 1
  now : Nat := 0
  connected : Bool := false
  host : String := ""
  port : Int := 0
  stats : ConnStats := {}
  trades : List (OrderKey × Trade) := []
  pnlKey2ReqId : List ((String × String) × Int) := []
  reqId2PnL : List (Int × PnL) := []
  pnlSingleKey2ReqId : List ((String × String × Int) × Int) := []
  reqId2PnlSingle : List (Int × PnLSingle) := []
  sent : List WireMsg := []
  emitted : List Emit := []
  deriving DecidableEq, Repr

/-- `client.getReqId()`: hand out the next request id. -/
def getReqId (s : IBState) : Int × IBState :=
  (s.nextReqId, { s with nextReqId := s.nextReqId + 1 })

/-- IB.placeOrder (ib.py lines 780-814).  Returns `none` on the
`assert trade.orderStatus.status not in OrderStatus.DoneStates`
failure, otherwise the returned Trade and the updated state. -/
def placeOrder (s : IBState) (contract : Contract) (order : Order) :
    Option (Trade × IBState) :=
  let idState := if order.orderId ≠ 0 then (order.orderId, s) else getReqId s
  let orderId := idState.1
  let s1 := idState.2
  let s2 := { s1 with sent := s1.sent ++ [WireMsg.placeOrderMsg orderId contract order] }
  let key := orderKey s2.clientId orderId order.permId
  match lookupA s2.trades key with
  | some trade =>
      if OrderStatus.DoneStates trade.orderStatus.status then
        none
      else
        let logEntry : TradeLogEntry := ⟨s2.now, trade.orderStatus.status, "Modify"⟩
        let trade' := { trade with log := trade.log ++ [logEntry] }
        some (trade',
          { s2 with
            trades := setAssoc s2.trades key trade'
            emitted := s2.emitted ++ [Emit.tradeModify trade', Emit.orderModifyEvent trade'] })
  | none =>
      let order' := { order with clientId := s2.clientId, orderId := orderId }
      let orderStatus : OrderStatus := ⟨orderId, .PendingSubmit⟩
      let logEntry : TradeLogEntry := ⟨s2.now, .PendingSubmit, ""⟩
      let trade : Trade := ⟨contract, order', orderStatus, [], [logEntry]⟩
      some (trade,
        { s2 with
          trades := setAssoc s2.trades key trade
          emitted := s2.emitted ++ [Emit.newOrderEvent trade] })

/-- The status a cancel request moves a non-terminal Trade to
(ib.py lines 832-840): directly Cancelled when the order sits untransmitted
in PendingSubmit or is Inactive, else the intermediate PendingCancel. -/
def cancelNewStatus (status : Status) (transmit : Bool) : Status :=
  if (status = Status.PendingSubmit ∧ transmit = false) ∨ status = Status.Inactive then
    Status.Cancelled
  else
    Status.PendingCancel

/-- IB.cancelOrder (ib.py lines 816-855).  Returns the Trade the order
belongs to (`none` for an unknown orderId) together with the updated
state. -/
def cancelOrder (s : IBState) (order : Order) (manualCancelOrderTime : String) :
    Option Trade × IBState :=
  let s1 := { s with sent := s.sent ++ [WireMsg.cancelOrderMsg order.orderId manualCancelOrderTime] }
  let key := orderKey order.clientId order.orderId order.permId
  match lookupA s1.trades key with
  | some trade =>
      if trade.isDone then
        (some trade, s1)
      else
        let newStatus := cancelNewStatus trade.orderStatus.status order.transmit
        let logEntry : TradeLogEntry := ⟨s1.now, newStatus, ""⟩
        let trade' := { trade with
          log := trade.log ++ [logEntry]
          orderStatus := { trade.orderStatus with status := newStatus } }
        let emits :=
          [Emit.tradeCancel trade', Emit.tradeStatus trade',
           Emit.cancelOrderEvent trade', Emit.orderStatusEvent trade'] ++
          (if newStatus = .Cancelled then [Emit.tradeCancelled trade'] else [])
        (some trade',
          { s1 with
            trades := setAssoc s1.trades key trade'
            emitted := s1.emitted ++ emits })
  | none => (none, s1)

/-- Modelled from the spec: the `LimitOrder` convenience constructor
lives in order.py, not under src/; it builds an Order of type "LMT"
with the given action, quantity and limit price, forwarding the keyword
arguments (orderId, transmit, parentId) that bracketOrder supplies. -/
def LimitOrder (action : String) (quantity lmtPrice : Rat) (orderId : Int)
    (transmit : Bool) (parentId : Int := 0) : Order :=
  { orderId := orderId, action := action, totalQuantity := quantity,
    orderType := "LMT", lmtPrice := lmtPrice, transmit := transmit,
    parentId := parentId }

/-- Modelled from the spec: the `StopOrder` convenience constructor
lives in order.py, not under src/; it builds an Order of type "STP"
with the given stop price as auxPrice, forwarding the keyword arguments
that bracketOrder supplies. -/
def StopOrder (action : String) (quantity stopPrice : Rat) (orderId : Int)
    (transmit : Bool) (parentId : Int := 0) : Order :=
  { orderId := orderId, action := action, totalQuantity := quantity,
    orderType := "STP", auxPrice := stopPrice, transmit := transmit,
    parentId := parentId }

/-- `BracketOrder(parent, takeProfit, stopLoss)`. -/
structure BracketOrder where
  parent : Order
  takeProfit : Order
  stopLoss : Order
  deriving DecidableEq, Repr

/-- IB.bracketOrder (ib.py lines 694-750).  Returns `none` on the
`assert action in ("BUY", "SELL")` failure. -/
def bracketOrder (s : IBState) (action : String)
    (quantity limitPrice takeProfitPrice stopLossPrice : Rat) :
    Option (BracketOrder × IBState) :=
  if action = "BUY" ∨ action = "SELL" then
    let reverseAction := if action = "SELL" then "BUY" else "SELL"
    let r1 := getReqId s
    let parent := LimitOrder action quantity limitPrice r1.1 false
    let r2 := getReqId r1.2
    let takeProfit :=
      LimitOrder reverseAction quantity takeProfitPrice r2.1 false parent.orderId
    let r3 := getReqId r2.2
    let stopLoss :=
      StopOrder reverseAction quantity stopLossPrice r3.1 true parent.orderId
    some (⟨parent, takeProfit, stopLoss⟩, r3.2)
  else
    none

/-- IB.oneCancelsAll (ib.py lines 752-765): a static method that stamps
ocaGroup and ocaType on each order and returns the orders; it touches
no session state and sends nothing. -/
def oneCancelsAll (orders : List Order) (ocaGroup : String) (ocaType : Int) :
    List Order :=
  orders.map fun o => { o with ocaGroup := ocaGroup, ocaType := ocaType }

/-- IB.reqPnL (ib.py lines 984-1006).  Returns `none` on the
`assert key not in self.wrapper.pnlKey2ReqId` failure. -/
def reqPnL (s : IBState) (account : String) (modelCode : String) :
    Option (PnL × IBState) :=
  let key := (account, modelCode)
  if (lookupA s.pnlKey2ReqId key).isSome then
    none
  else
    let r := getReqId s
    let pnl : PnL := ⟨account, modelCode⟩
    some (pnl,
      { r.2 with
        pnlKey2ReqId := setAssoc r.2.pnlKey2ReqId key r.1
        reqId2PnL := setAssoc r.2.reqId2PnL r.1 pnl
        sent := r.2.sent ++ [WireMsg.reqPnLMsg r.1 account modelCode] })

/-- IB.reqPnLSingle (ib.py lines 1027-1050).  Returns `none` on the
`assert key not in self.wrapper.pnlSingleKey2ReqId` failure. -/
def reqPnLSingle (s : IBState) (account : String) (modelCode : String)
    (conId : Int) : Option (PnLSingle × IBState) :=
  let key := (account, modelCode, conId)
  if (lookupA s.pnlSingleKey2ReqId key).isSome then
    none
  else
    let r := getReqId s
    let pnlSingle : PnLSingle := ⟨account, modelCode, conId⟩
    some (pnlSingle,
      { r.2 with
        pnlSingleKey2ReqId := setAssoc r.2.pnlSingleKey2ReqId key r.1
        reqId2PnlSingle := setAssoc r.2.reqId2PnlSingle r.1 pnlSingle
        sent := r.2.sent ++ [WireMsg.reqPnLSingleMsg r.1 account modelCode conId] })

/-- The status string disconnect builds from the connection statistics
(util.formatSI is rendered as plain decimal here; its formatting is
immaterial to the claims about disconnect). -/
def statusMsg (host : String) (port : Int) (stats : ConnStats) : String :=
  "Disconnecting from " ++ host ++ ":" ++ toString port ++ ", " ++
    toString stats.numBytesSent ++ "B sent in " ++
    toString stats.numMsgSent ++ " messages, " ++
    toString stats.numBytesRecv ++ "B received in " ++
    toString stats.numMsgRecv ++ " messages, session time " ++
    toString stats.duration ++ "s."

/-- Modelled from the spec: `wrapper.reset()` lives in wrapper.py, not
under src/.  Per the spec it clears all per-connection state on
disconnect (trades, subscription maps); the send/emission traces are
bookkeeping of this embedding, not wrapper state, and remain. -/
def reset (s : IBState) : IBState :=
  { s with
    trades := []
    pnlKey2ReqId := []
    reqId2PnL := []
    pnlSingleKey2ReqId := []
    reqId2PnlSingle := [] }

/-- IB.disconnect (ib.py lines 382-408): a no-op returning `none` when
not connected; otherwise tears down the connection, emits
disconnectedEvent, resets the wrapper state and returns the status
string. -/
def disconnect (s : IBState) : Option String × IBState :=
  if s.connected = false then
    (none, s)
  else
    let status := statusMsg s.host s.port s.stats
    (some status,
      reset { s with
        connected := false
        emitted := s.emitted ++ [Emit.disconnectedEvent] })

/-- StartupFetch (ib.py lines 60-78) as a record of flag bits. -/
structure StartupFetch where
  positions : Bool := false
  ordersOpen : Bool := false
  ordersComplete : Bool := false
  accountUpdates : Bool := false
  subAccountUpdates : Bool := false
  executions : Bool := false
  deriving DecidableEq, Repr

/-- StartupFetchNONE (ib.py line 69). -/
def StartupFetchNONE : StartupFetch := {}

/-- StartupFetchALL (ib.py lines 71-78). -/
def StartupFetchALL : StartupFetch :=
  { positions := true, ordersOpen := true, ordersComplete := true,
    accountUpdates := true, subAccountUpdates := true, executions := true }

/-- The environment a connectAsync run executes against: whether the
API handshake succeeds, the managed accounts, the server version, which
startup sub-requests exceed their deadline, and whether the socket is
still ready at the final liveness check. -/
structure ConnEnv where
  connectOk : Bool := true
  accounts : List String := []
  serverVersion : Int := 176
  positionsTimeout : Bool := false
  openOrdersTimeout : Bool := false
  completedOrdersTimeout : Bool := false
  accountUpdatesTimeout : Bool := false
  subAccountTimeouts : List String := []
  executionsTimeout : Bool := false
  isReadyAtEnd : Bool := true
  deriving DecidableEq, Repr

/-- The exceptions connectAsync can raise: a failure of the underlying
client handshake, the aggregate ConnectionError carrying the collected
sync timeout messages, and the final-liveness ConnectionError. -/
inductive ConnError where
  | connectFailed
  | syncErrors (msgs : List String)
  | socketBroken
  deriving DecidableEq, Repr

/-- Observable outcome of a connectAsync run: the raised error if any,
the collected timeout error messages, whether connectedEvent was
emitted, whether the exception handler called disconnect(), whether the
serial per-account sync loop ran and which accounts it covered. -/
structure ConnOutcome where
  result : Option ConnError
  errors : List String
  connectedEmitted : Bool
  disconnectCalled : Bool
  syncLoopRan : Bool
  syncedAccounts : List String
  deriving DecidableEq, Repr

/-- ib.py lines 2049-2051: default the account to the single managed
account when none was given. -/
def resolvedAccount (account : String) (accounts : List String) : String :=
  if account = "" ∧ accounts.length = 1 then accounts.headD "" else account

/-- The timeout error messages collected by connectAsync in execution
order (ib.py lines 2053-2104): the concurrent initial batch (positions
always; open orders and completed orders gated by readonly, flags and
server version; account updates gated by a non-empty account and its
flag), then the serial per-account loop (gated only by the
MaxSyncedSubAccounts ceiling), then the executions request (gated by
its flag). -/
def startupErrors (readonly : Bool) (account : String)
    (fetchFields : StartupFetch) (maxSyncedSubAccounts : Nat)
    (env : ConnEnv) : List String :=
  let account := resolvedAccount account env.accounts
  (if env.positionsTimeout then ["positions request timed out"] else []) ++
  (if readonly = false ∧ fetchFields.ordersOpen = true ∧ env.openOrdersTimeout then
      ["open orders request timed out"] else []) ++
  (if readonly = false ∧ env.serverVersion ≥ 150 ∧
      fetchFields.ordersComplete = true ∧ env.completedOrdersTimeout then
      ["completed orders request timed out"] else []) ++
  (if account ≠ "" ∧ fetchFields.accountUpdates = true ∧ env.accountUpdatesTimeout then
      ["account updates request timed out"] else []) ++
  (if env.accounts.length ≤ maxSyncedSubAccounts then
      env.accounts.filterMap fun acc =>
        if acc ∈ env.subAccountTimeouts then
          some ("reqAccountUpdatesAsync for " ++ acc ++ " timed out")
        else none
    else []) ++
  (if fetchFields.executions = true ∧ env.executionsTimeout then
      ["executions request timed out"] else [])

/-- IB.connectAsync (ib.py lines 2027-2119): run the startup
synchronization choreography against `env`, collecting timeout errors;
raise the aggregate ConnectionError when raiseSyncErrors is set and
errors were collected, then perform the final liveness check; any
exception triggers disconnect() before propagating; on success emit
connectedEvent. -/
def connectAsync (readonly : Bool) (account : String) (raiseSyncErrors : Bool)
    (fetchFields : StartupFetch) (maxSyncedSubAccounts : Nat)
    (env : ConnEnv) : ConnOutcome :=
  if env.connectOk = false then
    { result := some ConnError.connectFailed, errors := [],
      connectedEmitted := false, disconnectCalled := true,
      syncLoopRan := false, syncedAccounts := [] }
  else
    let errors := startupErrors readonly account fetchFields maxSyncedSubAccounts env
    let loopRan := decide (env.accounts.length ≤ maxSyncedSubAccounts)
    let synced := if loopRan then env.accounts else []
    if raiseSyncErrors = true ∧ errors ≠ [] then
      { result := some (ConnError.syncErrors errors), errors := errors,
        connectedEmitted := false, disconnectCalled := true,
        syncLoopRan := loopRan, syncedAccounts := synced }
    else if env.isReadyAtEnd = false then
      { result := some ConnError.socketBroken, errors := errors,
        connectedEmitted := false, disconnectCalled := true,
        syncLoopRan := loopRan, syncedAccounts := synced }
    else
      { result := none, errors := errors,
        connectedEmitted := true, disconnectCalled := false,
        syncLoopRan := loopRan, syncedAccounts := synced }

theorem lookupA_setAssoc_self {α β : Type} [DecidableEq α]
    (l : List (α × β)) (k : α) (v : β) :
    lookupA (setAssoc l k v) k = some v := by
  induction l with
  | nil => simp [setAssoc, lookupA]
  | cons p rest ih =>
      obtain ⟨k', v'⟩ := p
      by_cases h : k' = k
      · simp [setAssoc, lookupA, h]
      · simp [setAssoc, lookupA, h, ih]

theorem map_fst_setAssoc_of_lookup {α β : Type} [DecidableEq α]
    (l : List (α × β)) (k : α) (v w : β) (h : lookupA l k = some w) :
    (setAssoc l k v).map Prod.fst = l.map Prod.fst := by
  induction l with
  | nil => simp [lookupA] at h
  | cons p rest ih =>
      obtain ⟨k', v'⟩ := p
      by_cases hk : k' = k
      · simp [setAssoc, hk]
      · simp only [lookupA, if_neg hk] at h
        simp [setAssoc, hk, ih h]

/-- C1: a placeOrder call whose (clientId, orderId, permId) key matches
an existing non-terminal Trade is a modification: it returns that Trade
with exactly one log entry appended, creates no new entry in the trades
map, leaves the Trade's contract, order, status and fill list
unchanged, emits the orderModifyEvent and never the newOrderEvent. -/
theorem placeOrder_modify_existing (s : IBState) (contract : Contract)
    (order : Order) (t : Trade)
    (hid : order.orderId ≠ 0)
    (hkey : lookupA s.trades (orderKey s.clientId order.orderId order.permId) = some t)
    (hnd : t.isDone = false) :
    ∃ tr s',
      placeOrder s contract order = some (tr, s') ∧
      tr.contract = t.contract ∧
      tr.order = t.order ∧
      tr.orderStatus = t.orderStatus ∧
      tr.fills = t.fills ∧
      tr.log = t.log ++ [⟨s.now, t.orderStatus.status, "Modify"⟩] ∧
      s'.trades.map Prod.fst = s.trades.map Prod.fst ∧
      lookupA s'.trades (orderKey s.clientId order.orderId order.permId) = some tr ∧
      s'.emitted = s.emitted ++ [Emit.tradeModify tr, Emit.orderModifyEvent tr] := by
  have hd : OrderStatus.DoneStates t.orderStatus.status = false := hnd
  refine ⟨{ t with log := t.log ++ [⟨s.now, t.orderStatus.status, "Modify"⟩] }, ?_, ?_⟩
  · exact { s with
      sent := s.sent ++ [WireMsg.placeOrderMsg order.orderId contract order]
      trades := setAssoc s.trades (orderKey s.clientId order.orderId order.permId)
        { t with log := t.log ++ [⟨s.now, t.orderStatus.status, "Modify"⟩] }
      emitted := s.emitted ++
        [Emit.tradeModify { t with log := t.log ++ [⟨s.now, t.orderStatus.status, "Modify"⟩] },
         Emit.orderModifyEvent { t with log := t.log ++ [⟨s.now, t.orderStatus.status, "Modify"⟩] }] }
  · simp only [placeOrder, if_pos hid, hkey, hd, Bool.false_eq_true, if_false]
    refine ⟨trivial, trivial, trivial, trivial, trivial, trivial, ?_, ?_, trivial⟩
    · exact map_fst_setAssoc_of_lookup _ _ _ _ hkey
    · exact lookupA_setAssoc_self _ _ _

/-- Concrete contract for witness instances. -/
def wContract : Contract := {}

/-- Concrete order (clientId 1, orderId 5) for witness instances. -/
def wOrder : Order := { orderId := 5, clientId := 1 }

/-- Concrete non-terminal Trade stored under (clientId 1, orderId 5). -/
def wTrade : Trade :=
  { contract := {}, order := wOrder,
    orderStatus := { orderId := 5, status := Status.Submitted } }

/-- Concrete session state holding wTrade. -/
def wState : IBState :=
  { clientId := 1, trades := [(OrderKey.client 1 5, wTrade)] }

theorem placeOrder_modify_existing_witness :
    ∃ tr s',
      placeOrder wState wContract wOrder = some (tr, s') ∧
      tr.contract = wTrade.contract ∧
      tr.order = wTrade.order ∧
      tr.orderStatus = wTrade.orderStatus ∧
      tr.fills = wTrade.fills ∧
      tr.log = wTrade.log ++ [⟨wState.now, wTrade.orderStatus.status, "Modify"⟩] ∧
      s'.trades.map Prod.fst = wState.trades.map Prod.fst ∧
      lookupA s'.trades (orderKey wState.clientId wOrder.orderId wOrder.permId) = some tr ∧
      s'.emitted = wState.emitted ++ [Emit.tradeModify tr, Emit.orderModifyEvent tr] :=
  placeOrder_modify_existing wState wContract wOrder wTrade
    (by decide) (by rfl) (by rfl)

/-- Concrete untransmitted order (clientId 1, orderId 7). -/
def wPendingOrder : Order := { orderId := 7, clientId := 1, transmit := false }

/-- Concrete Trade sitting in PendingSubmit for wPendingOrder. -/
def wPendingTrade : Trade :=
  { contract := {}, order := wPendingOrder,
    orderStatus := { orderId := 7, status := Status.PendingSubmit } }

/-- Concrete session state holding wPendingTrade. -/
def wPendingState : IBState :=
  { clientId := 1, trades := [(OrderKey.client 1 7, wPendingTrade)] }

/-- Concrete terminal (Filled) Trade for wOrder. -/
def wDoneTrade : Trade :=
  { contract := {}, order := wOrder,
    orderStatus := { orderId := 5, status := Status.Filled } }

/-- Concrete session state holding wDoneTrade. -/
def wDoneState : IBState :=
  { clientId := 1, trades := [(OrderKey.client 1 5, wDoneTrade)] }

/-- C2: cancelOrder on a known non-terminal Trade moves its status to
Cancelled when the order sits untransmitted in PendingSubmit or is
Inactive, else to PendingCancel; appends exactly one log entry, emits
the cancel and status notifications (trade-level and IB-level), and
emits the terminal cancelledEvent exactly when the resulting status is
Cancelled. -/
theorem cancelOrder_nonterminal (s : IBState) (order : Order) (t : Trade)
    (hkey : lookupA s.trades (orderKey order.clientId order.orderId order.permId) = some t)
    (hnd : t.isDone = false) :
    ∃ tr s',
      cancelOrder s order "" = (some tr, s') ∧
      tr.orderStatus.status =
        (if (t.orderStatus.status = Status.PendingSubmit ∧ order.transmit = false) ∨
            t.orderStatus.status = Status.Inactive
         then Status.Cancelled else Status.PendingCancel) ∧
      tr.log = t.log ++ [⟨s.now, tr.orderStatus.status, ""⟩] ∧
      tr.fills = t.fills ∧
      s'.trades.map Prod.fst = s.trades.map Prod.fst ∧
      lookupA s'.trades (orderKey order.clientId order.orderId order.permId) = some tr ∧
      s'.emitted = s.emitted ++
        [Emit.tradeCancel tr, Emit.tradeStatus tr,
         Emit.cancelOrderEvent tr, Emit.orderStatusEvent tr] ++
        (if tr.orderStatus.status = Status.Cancelled
         then [Emit.tradeCancelled tr] else []) := by
  simp only [cancelOrder, hkey, hnd, Bool.false_eq_true, if_false]
  refine ⟨_, _, rfl, ?_, ?_, ?_, ?_, ?_, ?_⟩
  · rfl
  · rfl
  · rfl
  · exact map_fst_setAssoc_of_lookup _ _ _ _ hkey
  · exact lookupA_setAssoc_self _ _ _
  · simp [cancelNewStatus, List.append_assoc]

theorem cancelOrder_nonterminal_witness :
    ∃ tr s',
      cancelOrder wPendingState wPendingOrder "" = (some tr, s') ∧
      tr.orderStatus.status =
        (if (wPendingTrade.orderStatus.status = Status.PendingSubmit ∧
             wPendingOrder.transmit = false) ∨
            wPendingTrade.orderStatus.status = Status.Inactive
         then Status.Cancelled else Status.PendingCancel) ∧
      tr.log = wPendingTrade.log ++ [⟨wPendingState.now, tr.orderStatus.status, ""⟩] ∧
      tr.fills = wPendingTrade.fills ∧
      s'.trades.map Prod.fst = wPendingState.trades.map Prod.fst ∧
      lookupA s'.trades
        (orderKey wPendingOrder.clientId wPendingOrder.orderId wPendingOrder.permId) =
        some tr ∧
      s'.emitted = wPendingState.emitted ++
        [Emit.tradeCancel tr, Emit.tradeStatus tr,
         Emit.cancelOrderEvent tr, Emit.orderStatusEvent tr] ++
        (if tr.orderStatus.status = Status.Cancelled
         then [Emit.tradeCancelled tr] else []) :=
  cancelOrder_nonterminal wPendingState wPendingOrder wPendingTrade
    (by rfl) (by rfl)

/-- C3: cancelOrder on an already-terminal Trade leaves the local state
unchanged: the trades map and the emission trace are untouched (so no
log entry, no status change, no notification), and the stored Trade is
returned as is. -/
theorem cancelOrder_done_noop (s : IBState) (order : Order) (t : Trade)
    (hkey : lookupA s.trades (orderKey order.clientId order.orderId order.permId) = some t)
    (hd : t.isDone = true) :
    ∃ s', cancelOrder s order "" = (some t, s') ∧
      s'.trades = s.trades ∧ s'.emitted = s.emitted := by
  simp only [cancelOrder, hkey, hd, if_true]
  exact ⟨_, rfl, rfl, rfl⟩

theorem cancelOrder_done_noop_witness :
    ∃ s', cancelOrder wDoneState wOrder "" = (some wDoneTrade, s') ∧
      s'.trades = wDoneState.trades ∧ s'.emitted = wDoneState.emitted :=
  cancelOrder_done_noop wDoneState wOrder wDoneTrade (by rfl) (by rfl)

/-- C4: for a valid action, bracketOrder returns three orders in which
the take-profit and stop-loss orders carry parentId equal to the entry
order's orderId, only the stop-loss order has transmit set, and the
entry and take-profit orders have transmit cleared. -/
theorem bracketOrder_linkage (s : IBState) (action : String)
    (quantity limitPrice takeProfitPrice stopLossPrice : Rat)
    (h : action = "BUY" ∨ action = "SELL") :
    ∃ b s',
      bracketOrder s action quantity limitPrice takeProfitPrice stopLossPrice
        = some (b, s') ∧
      b.takeProfit.parentId = b.parent.orderId ∧
      b.stopLoss.parentId = b.parent.orderId ∧
      b.parent.transmit = false ∧
      b.takeProfit.transmit = false ∧
      b.stopLoss.transmit = true := by
  simp only [bracketOrder, if_pos h]
  exact ⟨_, _, rfl, rfl, rfl, rfl, rfl, rfl⟩

theorem bracketOrder_linkage_witness :
    ∃ b s',
      bracketOrder {} "BUY" 100 10 11 9 = some (b, s') ∧
      b.takeProfit.parentId = b.parent.orderId ∧
      b.stopLoss.parentId = b.parent.orderId ∧
      b.parent.transmit = false ∧
      b.takeProfit.transmit = false ∧
      b.stopLoss.transmit = true :=
  bracketOrder_linkage {} "BUY" 100 10 11 9 (Or.inl rfl)

/-- C9: oneCancelsAll stamps the given ocaGroup and ocaType on every
order and returns the orders in place: the result has the same length,
and each order agrees with its original on every other field.  The
embedding types it without any session state, as in the source it is a
static method that neither touches the wrapper nor sends anything. -/
theorem oneCancelsAll_tags (orders : List Order) (ocaGroup : String)
    (ocaType : Int) :
    (oneCancelsAll orders ocaGroup ocaType).length = orders.length ∧
    List.Forall₂ (fun o o' =>
      o'.ocaGroup = ocaGroup ∧ o'.ocaType = ocaType ∧
      o'.orderId = o.orderId ∧ o'.clientId = o.clientId ∧
      o'.permId = o.permId ∧ o'.action = o.action ∧
      o'.totalQuantity = o.totalQuantity ∧ o'.orderType = o.orderType ∧
      o'.lmtPrice = o.lmtPrice ∧ o'.auxPrice = o.auxPrice ∧
      o'.transmit = o.transmit ∧ o'.parentId = o.parentId)
      orders (oneCancelsAll orders ocaGroup ocaType) := by
  constructor
  · simp [oneCancelsAll]
  · induction orders with
    | nil => exact List.Forall₂.nil
    | cons o rest ih =>
        exact List.Forall₂.cons
          ⟨rfl, rfl, rfl, rfl, rfl, rfl, rfl, rfl, rfl, rfl, rfl, rfl⟩ ih

/-- C8: reqPnL (and reqPnLSingle) fail fast by assertion when the
subscription key is already present in the active-subscription map and
create no duplicate; when the key is absent they register the key with
a fresh request id and return the live PnL (resp. PnLSingle) object,
which is also recorded under that request id. -/
theorem reqPnL_duplicate_guard (s : IBState) (account modelCode : String)
    (conId : Int) :
    ((lookupA s.pnlKey2ReqId (account, modelCode)).isSome = true →
      reqPnL s account modelCode = none) ∧
    ((lookupA s.pnlKey2ReqId (account, modelCode)).isSome = false →
      ∃ s', reqPnL s account modelCode = some (⟨account, modelCode⟩, s') ∧
        lookupA s'.pnlKey2ReqId (account, modelCode) = some s.nextReqId ∧
        lookupA s'.reqId2PnL s.nextReqId = some ⟨account, modelCode⟩) ∧
    ((lookupA s.pnlSingleKey2ReqId (account, modelCode, conId)).isSome = true →
      reqPnLSingle s account modelCode conId = none) ∧
    ((lookupA s.pnlSingleKey2ReqId (account, modelCode, conId)).isSome = false →
      ∃ s', reqPnLSingle s account modelCode conId =
          some (⟨account, modelCode, conId⟩, s') ∧
        lookupA s'.pnlSingleKey2ReqId (account, modelCode, conId) = some s.nextReqId ∧
        lookupA s'.reqId2PnlSingle s.nextReqId = some ⟨account, modelCode, conId⟩) := by
  refine ⟨?_, ?_, ?_, ?_⟩
  · intro h
    simp [reqPnL, h]
  · intro h
    refine ⟨{ s with
        nextReqId := s.nextReqId + 1
        pnlKey2ReqId := setAssoc s.pnlKey2ReqId (account, modelCode) s.nextReqId
        reqId2PnL := setAssoc s.reqId2PnL s.nextReqId ⟨account, modelCode⟩
        sent := s.sent ++ [WireMsg.reqPnLMsg s.nextReqId account modelCode] },
      ?_, ?_, ?_⟩
    · simp [reqPnL, h, getReqId]
    · exact lookupA_setAssoc_self _ _ _
    · exact lookupA_setAssoc_self _ _ _
  · intro h
    simp [reqPnLSingle, h]
  · intro h
    refine ⟨{ s with
        nextReqId := s.nextReqId + 1
        pnlSingleKey2ReqId :=
          setAssoc s.pnlSingleKey2ReqId (account, modelCode, conId) s.nextReqId
        reqId2PnlSingle :=
          setAssoc s.reqId2PnlSingle s.nextReqId ⟨account, modelCode, conId⟩
        sent := s.sent ++ [WireMsg.reqPnLSingleMsg s.nextReqId account modelCode conId] },
      ?_, ?_, ?_⟩
    · simp [reqPnLSingle, h, getReqId]
    · exact lookupA_setAssoc_self _ _ _
    · exact lookupA_setAssoc_self _ _ _

/-- Concrete state with active P&L subscriptions under ("A","m") and
("A","m",9). -/
def wPnlState : IBState :=
  { nextReqId := 3,
    pnlKey2ReqId := [(("A", "m"), 1)],
    pnlSingleKey2ReqId := [(("A", "m", 9), 2)] }

/-- Concrete state with no active P&L subscription. -/
def wEmptyState : IBState := { nextReqId := 3 }

theorem reqPnL_duplicate_guard_witness :
    reqPnL wPnlState "A" "m" = none ∧
    (∃ s', reqPnL wEmptyState "A" "m" = some (⟨"A", "m"⟩, s') ∧
      lookupA s'.pnlKey2ReqId ("A", "m") = some wEmptyState.nextReqId ∧
      lookupA s'.reqId2PnL wEmptyState.nextReqId = some ⟨"A", "m"⟩) ∧
    reqPnLSingle wPnlState "A" "m" 9 = none ∧
    (∃ s', reqPnLSingle wEmptyState "A" "m" 9 = some (⟨"A", "m", 9⟩, s') ∧
      lookupA s'.pnlSingleKey2ReqId ("A", "m", 9) = some wEmptyState.nextReqId ∧
      lookupA s'.reqId2PnlSingle wEmptyState.nextReqId = some ⟨"A", "m", 9⟩) :=
  ⟨(reqPnL_duplicate_guard wPnlState "A" "m" 9).1 (by decide),
   (reqPnL_duplicate_guard wEmptyState "A" "m" 9).2.1 (by decide),
   (reqPnL_duplicate_guard wPnlState "A" "m" 9).2.2.1 (by decide),
   (reqPnL_duplicate_guard wEmptyState "A" "m" 9).2.2.2 (by decide)⟩

/-- C10: disconnect on a non-connected client returns none and changes
nothing at all; on a connected client it returns a status string, emits
disconnectedEvent and clears all per-connection session state. -/
theorem disconnect_behavior (s : IBState) :
    (s.connected = false → disconnect s = (none, s)) ∧
    (s.connected = true →
      ∃ msg s', disconnect s = (some msg, s') ∧
        s'.connected = false ∧
        s'.trades = [] ∧
        s'.pnlKey2ReqId = [] ∧
        s'.reqId2PnL = [] ∧
        s'.pnlSingleKey2ReqId = [] ∧
        s'.reqId2PnlSingle = [] ∧
        s'.emitted = s.emitted ++ [Emit.disconnectedEvent]) := by
  constructor
  · intro h
    simp [disconnect, h]
  · intro h
    refine ⟨statusMsg s.host s.port s.stats,
      reset { s with
        connected := false
        emitted := s.emitted ++ [Emit.disconnectedEvent] },
      ?_, rfl, rfl, rfl, rfl, rfl, rfl, rfl⟩
    simp [disconnect, h]

/-- Concrete connected session state with a live trade. -/
def wConnState : IBState :=
  { clientId := 1, connected := true, host := "h", port := 4001,
    trades := [(OrderKey.client 1 5, wTrade)] }

theorem disconnect_behavior_witness :
    disconnect wEmptyState = (none, wEmptyState) ∧
    (∃ msg s', disconnect wConnState = (some msg, s') ∧
      s'.connected = false ∧
      s'.trades = [] ∧
      s'.pnlKey2ReqId = [] ∧
      s'.reqId2PnL = [] ∧
      s'.pnlSingleKey2ReqId = [] ∧
      s'.reqId2PnlSingle = [] ∧
      s'.emitted = wConnState.emitted ++ [Emit.disconnectedEvent]) :=
  ⟨(disconnect_behavior wEmptyState).1 (by rfl),
   (disconnect_behavior wConnState).2 (by rfl)⟩

/-- C5 (evaluation at the failing input): with SUB_ACCOUNT_UPDATES
absent from fetchFields (StartupFetchNONE) and a single managed
account, connectAsync still runs the serial per-account sync loop — the
code gates the loop only on the MaxSyncedSubAccounts ceiling (ib.py
line 2085) and never consults the SUB_ACCOUNT_UPDATES flag. -/
theorem connectAsync_syncLoop_ignores_flag :
    StartupFetchNONE.subAccountUpdates = false ∧
    (connectAsync false "" false StartupFetchNONE 50
      { accounts := ["A"] }).syncLoopRan = true ∧
    (connectAsync false "" false StartupFetchNONE 50
      { accounts := ["A"] }).syncedAccounts = ["A"] := by
  refine ⟨rfl, ?_, ?_⟩ <;> rfl

/-- Concrete environment in which only the open-orders startup request
times out. -/
def wOpenOrdersTimeoutEnv : ConnEnv := { openOrdersTimeout := true }

/-- C6: when the open-orders startup sub-request exceeds its deadline
while every other sub-request (including account updates) succeeds, and
raiseSyncErrors is false, the connect attempt completes, emits
connectedEvent, and records exactly one error message — the one for the
open-orders timeout, whose text references open orders timing out. -/
theorem connectAsync_openOrders_timeout (account : String)
    (fetchFields : StartupFetch) (maxSyncedSubAccounts : Nat) (env : ConnEnv)
    (hconn : env.connectOk = true)
    (hoo : fetchFields.ordersOpen = true)
    (hto : env.openOrdersTimeout = true)
    (hpos : env.positionsTimeout = false)
    (hco : env.completedOrdersTimeout = false)
    (hau : env.accountUpdatesTimeout = false)
    (hsub : env.subAccountTimeouts = [])
    (hex : env.executionsTimeout = false)
    (hready : env.isReadyAtEnd = true) :
    (connectAsync false account false fetchFields maxSyncedSubAccounts env).result
      = none ∧
    (connectAsync false account false fetchFields maxSyncedSubAccounts env).connectedEmitted
      = true ∧
    (connectAsync false account false fetchFields maxSyncedSubAccounts env).errors
      = ["open orders request timed out"] ∧
    "open orders request timed out" = "open orders" ++ " request " ++ "timed out" := by
  have herrs : startupErrors false account fetchFields maxSyncedSubAccounts env
      = ["open orders request timed out"] := by
    simp [startupErrors, hoo, hto, hpos, hco, hau, hsub, hex]
  refine ⟨?_, ?_, ?_, rfl⟩ <;>
    simp [connectAsync, hconn, hready, herrs]

theorem connectAsync_openOrders_timeout_witness :
    (connectAsync false "" false StartupFetchALL 50 wOpenOrdersTimeoutEnv).result
      = none ∧
    (connectAsync false "" false StartupFetchALL 50 wOpenOrdersTimeoutEnv).connectedEmitted
      = true ∧
    (connectAsync false "" false StartupFetchALL 50 wOpenOrdersTimeoutEnv).errors
      = ["open orders request timed out"] ∧
    "open orders request timed out" = "open orders" ++ " request " ++ "timed out" :=
  connectAsync_openOrders_timeout "" StartupFetchALL 50 wOpenOrdersTimeoutEnv
    rfl rfl rfl rfl rfl rfl rfl rfl rfl

/-- C7: connectAsync raises the single aggregate ConnectionError
carrying exactly the collected timeout messages if and only if the
handshake succeeded, raiseSyncErrors is true and at least one timeout
message was collected; past that gate, the mandatory final liveness
check fails the attempt with a ConnectionError when the client session
is no longer ready; every raised error (handshake failure included)
triggers disconnect(), and a successful run emits connectedEvent
without unwinding. -/
theorem connectAsync_error_handling (readonly : Bool) (account : String)
    (raiseSyncErrors : Bool) (fetchFields : StartupFetch)
    (maxSyncedSubAccounts : Nat) (env : ConnEnv) (out : ConnOutcome)
    (hout : out = connectAsync readonly account raiseSyncErrors fetchFields
      maxSyncedSubAccounts env) :
    (out.result = some (ConnError.syncErrors out.errors) ↔
      env.connectOk = true ∧ raiseSyncErrors = true ∧ out.errors ≠ []) ∧
    (env.connectOk = true → ¬(raiseSyncErrors = true ∧ out.errors ≠ []) →
      env.isReadyAtEnd = false → out.result = some ConnError.socketBroken) ∧
    (env.connectOk = false → out.result = some ConnError.connectFailed) ∧
    out.result.isSome = out.disconnectCalled ∧
    (out.result = none → out.connectedEmitted = true) := by
  subst hout
  unfold connectAsync
  cases hc : env.connectOk with
  | false => simp
  | true =>
      by_cases hr : raiseSyncErrors = true ∧
        startupErrors readonly account fetchFields maxSyncedSubAccounts env ≠ []
      · simp [hr]
      · cases hready : env.isReadyAtEnd with
        | false => simp [hr, hready]
        | true => simp [hr, hready]

/-- Concrete environment for the strict-mode aggregate error: the
open-orders request times out and the caller opted into
raiseSyncErrors. -/
def wRaiseEnv : ConnEnv := { openOrdersTimeout := true }

theorem connectAsync_error_handling_witness :
    (connectAsync false "" true StartupFetchALL 50 wRaiseEnv).result =
      some (ConnError.syncErrors
        (connectAsync false "" true StartupFetchALL 50 wRaiseEnv).errors) ∧
    (connectAsync false "" true StartupFetchALL 50 wRaiseEnv).result.isSome =
      (connectAsync false "" true StartupFetchALL 50 wRaiseEnv).disconnectCalled :=
  ⟨((connectAsync_error_handling false "" true StartupFetchALL 50 wRaiseEnv _
      rfl).1).mpr ⟨rfl, rfl, by decide⟩,
   (connectAsync_error_handling false "" true StartupFetchALL 50 wRaiseEnv _
      rfl).2.2.2.1⟩

end IbAsync
